import Mathlib

/-!
Shallow embedding of the Regula rate-compliance logic.

Source of truth: the dashboard component (its `RATE_DATABASE`,
`GEO_ADJUSTMENTS`, `generateSampleAnalysis` claim construction and
`calculateMetrics`).  JavaScript numbers are modelled by exact rationals
(`ℚ`); `Number.prototype.toFixed(n)` is modelled as half-up rounding at
`n` decimal places; a JavaScript division whose denominator is `0` (the
only source of a non-finite value reachable in this code) is modelled by
`Option ℚ`, `none` standing for the non-finite IEEE result (`NaN` or
`±Infinity`).
-/

namespace Regula

/-- One row of `RATE_DATABASE`: base rate, 2025 COLA-adjusted rate (both in
dollars, as in the source), description and category. -/
structure RateInfo where
  base : ℚ
  cola2025 : ℚ
  description : String
  category : String
deriving Repr, DecidableEq

/-- The NY Medicaid rate table from the source (dollar amounts kept as exact
rationals). -/
def RATE_DATABASE : List (String × RateInfo) :=
  [ ("90837", ⟨158, 16249/100, "Psychotherapy 60 min", "Therapy"⟩)
  , ("90834", ⟨110, 11312/100, "Psychotherapy 45 min", "Therapy"⟩)
  , ("90791", ⟨175, 17997/100, "Psychiatric Diagnostic Eval", "Assessment"⟩)
  , ("90832", ⟨85, 8741/100, "Psychotherapy 30 min", "Therapy"⟩)
  , ("90846", ⟨125, 12855/100, "Family Therapy w/o patient", "Family"⟩)
  , ("90847", ⟨135, 13883/100, "Family Therapy w/ patient", "Family"⟩)
  , ("90853", ⟨95, 9770/100, "Group Psychotherapy", "Group"⟩)
  , ("H0032", ⟨68, 6993/100, "Mental Health Service", "Community"⟩)
  , ("96127", ⟨45, 4628/100, "Brief Emotional/Behavioral Assessment", "Assessment"⟩) ]

/-- One row of `GEO_ADJUSTMENTS`. -/
structure GeoInfo where
  factor : ℚ
  label : String
deriving Repr, DecidableEq

/-- The geographic adjustment table from the source. -/
def GEO_ADJUSTMENTS : List (String × GeoInfo) :=
  [ ("nyc", ⟨1065/1000, "New York City Metro"⟩)
  , ("longisland", ⟨1025/1000, "Long Island"⟩)
  , ("upstate", ⟨1, "Upstate NY"⟩) ]

/-- `x.toFixed(2)` read back as a number: round half-up at two decimals. -/
def toFixed2 (q : ℚ) : ℚ := (round (q * 100) : ℚ) / 100

/-- `x.toFixed(1)` read back as a number: round half-up at one decimal. -/
def toFixed1 (q : ℚ) : ℚ := (round (q * 10) : ℚ) / 10

/-- An enriched claim record exactly as built by `generateSampleAnalysis`
(lines 56–72 of the source).  `violationPercent` is `Option ℚ` because the
source divides by `mandateRate`; `none` models the non-finite JavaScript
result when `mandateRate = 0`. -/
structure ClaimRecord where
  claimId : String
  payer : String
  provider : String
  dos : String
  cptCode : String
  description : String
  category : String
  geoRegion : String
  mandateRate : ℚ
  paidAmount : ℚ
  delta : ℚ
  isViolation : Bool
  violationPercent : Option ℚ
  processingDate : String
deriving Repr, DecidableEq

/-- Claim construction from `generateSampleAnalysis`:
`mandateRate = rateInfo.cola2025 * geoFactor` (never rounded),
`paidAmount` stored through `toFixed(2)`, `delta` stored through
`toFixed(2)`, `isViolation = paid < mandateRate - 0.01` on the raw paid
amount, `violationPercent = ((mandateRate - paid) / mandateRate * 100)`
through `toFixed(1)` when `paid < mandateRate`, else `0`. -/
def mkClaim (claimId payer provider dos cptCode geoRegion processingDate : String)
    (rateInfo : RateInfo) (geoFactor : ℚ) (paidAmount : ℚ) : ClaimRecord :=
  let mandateRate := rateInfo.cola2025 * geoFactor
  { claimId := claimId
    payer := payer
    provider := provider
    dos := dos
    cptCode := cptCode
    description := rateInfo.description
    category := rateInfo.category
    geoRegion := geoRegion
    mandateRate := mandateRate
    paidAmount := toFixed2 paidAmount
    delta := toFixed2 (paidAmount - mandateRate)
    isViolation := decide (paidAmount < mandateRate - 1/100)
    violationPercent :=
      if paidAmount < mandateRate then
        if mandateRate = 0 then none
        else some (toFixed1 ((mandateRate - paidAmount) / mandateRate * 100))
      else some 0
    processingDate := processingDate }

/-- Per-group counters of the payer/category breakdowns in
`calculateMetrics`. -/
structure GroupStats where
  total : Nat
  violations : Nat
  recoverable : ℚ
deriving Repr, DecidableEq

/-- Per-month counters of `monthlyTrends` in `calculateMetrics`. -/
structure MonthStats where
  violations : Nat
  recoverable : ℚ
deriving Repr, DecidableEq

/-- One entry of `trendData`. -/
structure TrendEntry where
  month : String
  violations : Nat
  recoverable : ℚ
deriving Repr, DecidableEq

/-- Find-or-create update of a JavaScript object viewed as an association
list in key-insertion order: a fresh key is appended at the end, an
existing key is updated in place. -/
def updateAssoc {β : Type} (l : List (String × β)) (k : String) (f : β → β)
    (init : β) : List (String × β) :=
  match l with
  | [] => [(k, f init)]
  | (k2, v) :: rest =>
      if k2 = k then (k2, f v) :: rest else (k2, v) :: updateAssoc rest k f init

/-- The per-claim update of `payerStats` / `categoryStats`. -/
def bumpGroup (c : ClaimRecord) (s : GroupStats) : GroupStats :=
  { total := s.total + 1
    violations := if c.isViolation then s.violations + 1 else s.violations
    recoverable := if c.isViolation then s.recoverable + |c.delta| else s.recoverable }

/-- The per-claim update of `monthlyTrends` (the entry is created for every
claim, but only violations increment it). -/
def bumpMonth (c : ClaimRecord) (s : MonthStats) : MonthStats :=
  if c.isViolation then
    { violations := s.violations + 1, recoverable := s.recoverable + |c.delta| }
  else s

/-- `claim.dos.substring(0, 7)`: the `YYYY-MM` month key of the service
date. -/
def monthOf (c : ClaimRecord) : String := c.dos.take 7

/-- `selectedPayer === 'all' ? analysisData : analysisData.filter(...)`. -/
def filteredData (analysisData : List ClaimRecord) (selectedPayer : String) :
    List ClaimRecord :=
  if selectedPayer = "all" then analysisData
  else analysisData.filter (fun c => c.payer = selectedPayer)

/-- The `payerStats` object of `calculateMetrics`. -/
def payerStats (fd : List ClaimRecord) : List (String × GroupStats) :=
  fd.foldl (fun acc c => updateAssoc acc c.payer (bumpGroup c) ⟨0, 0, 0⟩) []

/-- The `categoryStats` object of `calculateMetrics`. -/
def categoryStats (fd : List ClaimRecord) : List (String × GroupStats) :=
  fd.foldl (fun acc c => updateAssoc acc c.category (bumpGroup c) ⟨0, 0, 0⟩) []

/-- The `monthlyTrends` object of `calculateMetrics`. -/
def monthlyTrends (fd : List ClaimRecord) : List (String × MonthStats) :=
  fd.foldl (fun acc c => updateAssoc acc (monthOf c) (bumpMonth c) ⟨0, 0⟩) []

/-- `Object.keys(monthlyTrends).sort().map(...)`: keys in ascending
lexicographic order, each mapped to its trend entry. -/
def trendData (fd : List ClaimRecord) : List TrendEntry :=
  let mt := monthlyTrends fd
  (List.insertionSort (· ≤ ·) (mt.map Prod.fst)).map fun m =>
    let s := (mt.lookup m).getD ⟨0, 0⟩
    { month := m, violations := s.violations, recoverable := s.recoverable }

/-- The summary returned by `calculateMetrics`.  `violationRate` is
`Option ℚ`: the source computes `violations.length / filteredData.length *
100` with no guard, so an empty filtered list gives the non-finite `0/0`,
modelled as `none`. -/
structure Metrics where
  totalClaims : Nat
  violations : Nat
  violationRate : Option ℚ
  totalRecoverable : ℚ
  avgUnderpayment : ℚ
  payerStats : List (String × GroupStats)
  categoryStats : List (String × GroupStats)
  trendData : List TrendEntry
  topViolations : List ClaimRecord
deriving Repr, DecidableEq

/-- `calculateMetrics` (lines 87–155 of the source), for a non-null
`analysisData`. -/
def calculateMetrics (analysisData : List ClaimRecord) (selectedPayer : String) :
    Metrics :=
  let fd := filteredData analysisData selectedPayer
  let viol := fd.filter (fun c => c.isViolation)
  let totalRecoverable := viol.foldl (fun s c => s + |c.delta|) 0
  let avgUnderpayment :=
    if 0 < viol.length then totalRecoverable / (viol.length : ℚ) else 0
  let violationRate :=
    if fd.length = 0 then none
    else some (toFixed1 ((viol.length : ℚ) / (fd.length : ℚ) * 100))
  { totalClaims := fd.length
    violations := viol.length
    violationRate := violationRate
    totalRecoverable := totalRecoverable
    avgUnderpayment := avgUnderpayment
    payerStats := payerStats fd
    categoryStats := categoryStats fd
    trendData := trendData fd
    topViolations :=
      (List.insertionSort (fun a b => |b.delta| ≤ |a.delta|) viol).take 10 }

/-! ### Spec-modelled aggregator merge

The repository's `calculateMetrics` is one-shot only; the incremental
"merge partial summaries" mode exists only in the specification (§4.5).
The definitions below are therefore modelled from the spec and consume the
same enriched claim records that `calculateMetrics` consumes. -/

/-- Modelled from the spec: a partial `AggregateSummary` over a shard of a
batch — the additive totals plus the per-payer, per-category and per-month
breakdown totals (breakdowns as total functions from group key to group
stats, zero off-support).  The merge operation of §4.5 is pointwise
addition. -/
structure PartialSummary where
  totalClaims : Nat
  totalViolations : Nat
  totalRecoverable : ℚ
  byPayer : String → GroupStats
  byCategory : String → GroupStats
  byMonth : String → GroupStats

/-- Pointwise addition of two group-stat cells. -/
def mergeGroup (a b : GroupStats) : GroupStats :=
  { total := a.total + b.total
    violations := a.violations + b.violations
    recoverable := a.recoverable + b.recoverable }

/-- Modelled from the spec: the associative, commutative
`merge(a, b) -> summary` operation of §4.5. -/
def mergeSummary (a b : PartialSummary) : PartialSummary :=
  { totalClaims := a.totalClaims + b.totalClaims
    totalViolations := a.totalViolations + b.totalViolations
    totalRecoverable := a.totalRecoverable + b.totalRecoverable
    byPayer := fun k => mergeGroup (a.byPayer k) (b.byPayer k)
    byCategory := fun k => mergeGroup (a.byCategory k) (b.byCategory k)
    byMonth := fun k => mergeGroup (a.byMonth k) (b.byMonth k) }

/-- The summary of an empty shard. -/
def emptySummary : PartialSummary :=
  { totalClaims := 0
    totalViolations := 0
    totalRecoverable := 0
    byPayer := fun _ => ⟨0, 0, 0⟩
    byCategory := fun _ => ⟨0, 0, 0⟩
    byMonth := fun _ => ⟨0, 0, 0⟩ }

/-- The group-stat contribution of a single enriched claim record, matching
the per-claim updates of `calculateMetrics`. -/
def groupCell (c : ClaimRecord) : GroupStats :=
  { total := 1
    violations := if c.isViolation then 1 else 0
    recoverable := if c.isViolation then |c.delta| else 0 }

/-- The one-claim partial summary. -/
def summarizeClaim (c : ClaimRecord) : PartialSummary :=
  { totalClaims := 1
    totalViolations := if c.isViolation then 1 else 0
    totalRecoverable := if c.isViolation then |c.delta| else 0
    byPayer := fun k => if k = c.payer then groupCell c else ⟨0, 0, 0⟩
    byCategory := fun k => if k = c.category then groupCell c else ⟨0, 0, 0⟩
    byMonth := fun k => if k = monthOf c then groupCell c else ⟨0, 0, 0⟩ }

/-- Modelled from the spec: the one-shot "fold whole batch" mode of §4.5. -/
def aggregate (claims : List ClaimRecord) : PartialSummary :=
  claims.foldr (fun c s => mergeSummary (summarizeClaim c) s) emptySummary

/-- Merging a list of partial summaries. -/
def mergeAll (partials : List PartialSummary) : PartialSummary :=
  partials.foldr mergeSummary emptySummary

/-! ### Spec-modelled mandate resolver and batch pipeline

No lookup-failure, quarantine or per-claim error path exists in the
repository (the prototype only draws codes that are already in
`RATE_DATABASE`); the resolver and pipeline below are modelled from the
spec (§4.2, §4.3, §4.6, §7). -/

/-- Modelled from the spec: an input claim (§3), monetary values as integer
minor currency units. -/
structure InputClaim where
  claimId : String
  payer : String
  cptCode : String
  dos : String
  geoRegion : String
  units : ℤ
  paidAmount : ℤ
deriving Repr, DecidableEq

/-- Modelled from the spec: the per-claim `ResolutionError` kinds (§7). -/
inductive ResolutionErrorKind where
  | UnknownCode
  | UnknownRegion
  | UnknownPayer
  | AdapterUnresolvable
deriving Repr, DecidableEq

/-- Modelled from the spec: the resolved minimum-allowed amount for one
claim (§3), in integer minor currency units. -/
structure MandateResolution where
  allowedAmount : ℤ
deriving Repr, DecidableEq

/-- Modelled from the spec: `GeoCOLAAdapter.compute_allowed_amount` (§4.2),
`allowed = round_half_up(cola_rate * geo_factor * units)` with one half-up
rounding at the final multiplication, in integer minor currency units. -/
def computeAllowed (colaRateCents : ℤ) (geoFactor : ℚ) (units : ℤ) : ℤ :=
  round ((colaRateCents : ℚ) * geoFactor * (units : ℚ))

/-- Modelled from the spec: the Mandate Resolver (§4.3) — look up the
service code, then the geo factor, then invoke the default adapter (the
modelled payer registry maps every payer to the default GeoCOLA
adapter). -/
def resolve (rateTable : List (String × ℤ)) (geoTable : List (String × ℚ))
    (c : InputClaim) : Except ResolutionErrorKind MandateResolution :=
  match rateTable.lookup c.cptCode with
  | none => .error .UnknownCode
  | some cola =>
      match geoTable.lookup c.geoRegion with
      | none => .error .UnknownRegion
      | some factor => .ok ⟨computeAllowed cola factor c.units⟩

/-- Modelled from the spec: the Violation Detector output (§3, §4.4), with
the default tolerance of 1 minor currency unit. -/
structure Verdict where
  claimId : String
  mandate : ℤ
  paid : ℤ
  delta : ℤ
  isViolation : Bool
deriving Repr, DecidableEq

/-- Modelled from the spec: `detect(claim, resolution)` (§4.4). -/
def detect (c : InputClaim) (m : MandateResolution) : Verdict :=
  let delta := c.paidAmount - m.allowedAmount
  { claimId := c.claimId
    mandate := m.allowedAmount
    paid := c.paidAmount
    delta := delta
    isViolation := decide (delta < -1) }

/-- Modelled from the spec: the Claim Batch Pipeline (§4.6) — resolve each
claim, quarantining per-claim failures and continuing the batch. Returns
the successes (claim with its resolution) and the quarantine list (claim
with its error kind), both in batch order. -/
def pipelineRun (rateTable : List (String × ℤ)) (geoTable : List (String × ℚ)) :
    List InputClaim →
      List (InputClaim × MandateResolution) × List (InputClaim × ResolutionErrorKind)
  | [] => ([], [])
  | c :: rest =>
      let r := pipelineRun rateTable geoTable rest
      match resolve rateTable geoTable c with
      | .ok m => ((c, m) :: r.1, r.2)
      | .error e => (r.1, (c, e) :: r.2)

/-- Modelled from the spec: the `AggregateSummary` totals over the
successfully processed pairs only (total claims, violations, total
recoverable in minor units). -/
def specTotals (l : List (InputClaim × MandateResolution)) : Nat × Nat × ℤ :=
  let verdicts := l.map fun p => detect p.1 p.2
  let viol := verdicts.filter fun v => v.isViolation
  (l.length, viol.length, (viol.map fun v => |v.delta|).sum)

/-- Modelled from the spec: the integer minor-unit rate table of §4.1,
the `cola2025` column of the source `RATE_DATABASE` in cents. -/
def specRateTable : List (String × ℤ) :=
  RATE_DATABASE.map fun p => (p.1, round (p.2.cola2025 * 100))

/-- Modelled from the spec: the geo-factor table of §4.1, taken from the
source `GEO_ADJUSTMENTS`. -/
def specGeoTable : List (String × ℚ) :=
  GEO_ADJUSTMENTS.map fun p => (p.1, p.2.factor)

/-- Replace a record's processing date (used to state that the monthly
grouping is insensitive to the processing date). -/
def setProcessing (f : ClaimRecord → String) (c : ClaimRecord) : ClaimRecord :=
  { c with processingDate := f c }

/-- The ordering the specification claims for breakdown entries: descending
total recoverable amount, ties broken by ascending lexicographic group
key. -/
def descByRecoverable (l : List (String × ℚ)) : Prop :=
  l.Pairwise fun a b => b.2 < a.2 ∨ (a.2 = b.2 ∧ a.1 < b.1)

/-! ### Concrete records used by witnesses and counterexamples -/

/-- The `RATE_DATABASE` row for service code 90837. -/
def rate90837 : RateInfo := ⟨158, 16249/100, "Psychotherapy 60 min", "Therapy"⟩

/-- The `RATE_DATABASE` row for service code 90853. -/
def rate90853 : RateInfo := ⟨95, 9770/100, "Group Psychotherapy", "Group"⟩

/-- The spec's concrete scenario: code 90837, region nyc (factor 1.065),
units 1, paid 130.00 dollars (13000 cents), as the source builds it. -/
def nyClaim90837 : ClaimRecord :=
  mkClaim "CLM-2025-1000" "Aetna" "Dr. Sarah Johnson" "2025-03-10" "90837" "nyc"
    "2025-03-20" rate90837 (1065/1000) 130

/-- A January violation worth 10.00: code 90853 upstate (mandate 97.70),
paid 87.70. -/
def cexJan : ClaimRecord :=
  mkClaim "CLM-2025-1001" "Aetna" "Dr. Sarah Johnson" "2025-01-15" "90853"
    "upstate" "2025-03-01" rate90853 1 (877/10)

/-- A February violation worth 20.00: code 90853 upstate (mandate 97.70),
paid 77.70. -/
def cexFeb : ClaimRecord :=
  mkClaim "CLM-2025-1002" "Cigna" "Dr. Michael Chen" "2025-02-15" "90853"
    "upstate" "2025-03-01" rate90853 1 (777/10)

/-- An input claim referencing the unknown service code 99999. -/
def badClaim99999 : InputClaim :=
  ⟨"CLM-2025-2000", "Aetna", "99999", "2025-03-10", "nyc", 1, 13000⟩

/-- A resolvable input claim (code 90837, nyc). -/
def goodClaim : InputClaim :=
  ⟨"CLM-2025-2001", "Cigna", "90837", "2025-03-11", "nyc", 1, 13000⟩

/-! ## Theorems -/

/-- Folding `+ |delta|` from any start equals the start plus the sum of the
absolute deltas. -/
theorem foldl_abs_delta (l : List ClaimRecord) :
    ∀ s : ℚ, l.foldl (fun a c => a + |c.delta|) s
      = s + (l.map fun c => |c.delta|).sum := by
  induction l with
  | nil => intro s; simp
  | cons c t ih =>
      intro s
      simp only [List.foldl_cons, List.map_cons, List.sum_cons, ih]
      ring

/-- C1: for every claim built by the source, `isViolation` is exactly
`delta < -epsilon` with `delta = paid - mandate` (the raw amounts used in
the source's comparison) and `epsilon` one minor currency unit (`0.01`
dollars); in particular a claim paid exactly at the mandate amount is
compliant. -/
theorem c1_violation_tolerance
    (claimId payer provider dos cptCode geoRegion processingDate : String)
    (r : RateInfo) (geoFactor paid : ℚ) :
    ((mkClaim claimId payer provider dos cptCode geoRegion processingDate
        r geoFactor paid).isViolation = true
      ↔ paid - r.cola2025 * geoFactor < -(1/100))
    ∧ (paid - r.cola2025 * geoFactor = 0 →
        (mkClaim claimId payer provider dos cptCode geoRegion processingDate
          r geoFactor paid).isViolation = false) := by
  constructor
  · simp only [mkClaim, decide_eq_true_eq]
    constructor <;> intro h <;> linarith
  · intro h
    simp only [mkClaim, decide_eq_false_iff_not]
    intro h2
    linarith

/-- C1 witness: paying exactly the mandate amount (code 90853, upstate,
mandate 97.70, paid 97.70) is not a violation. -/
theorem c1_violation_tolerance_witness :
    (mkClaim "CLM-W" "Aetna" "Dr. Sarah Johnson" "2025-01-15" "90853" "upstate"
      "2025-02-01" rate90853 1 (977/10)).isViolation = false :=
  (c1_violation_tolerance "CLM-W" "Aetna" "Dr. Sarah Johnson" "2025-01-15"
    "90853" "upstate" "2025-02-01" rate90853 1 (977/10)).2 (by norm_num [rate90853])

/-- C2 (code bug): at the spec's concrete scenario (code 90837, nyc,
units 1, paid 130.00 dollars) the code stores the unrounded product
`162.49 × 1.065 = 173.05185` dollars as the mandate — 17305.185 cents, not
the half-up-rounded integer 17305 cents the claim states — while the
stored delta (−43.05 dollars = −4305 cents) and the violation flag do
match the claim, and the spec-modelled adapter does give 17305. -/
theorem c2_unrounded_mandate :
    nyClaim90837.mandateRate = 3461037/20000
    ∧ nyClaim90837.mandateRate * 100 ≠ (17305 : ℚ)
    ∧ nyClaim90837.delta = -4305/100
    ∧ nyClaim90837.isViolation = true
    ∧ computeAllowed 16249 (1065/1000) 1 = 17305 := by
  refine ⟨?_, ?_, ?_, ?_, ?_⟩
  · simp only [nyClaim90837, rate90837, mkClaim]
    norm_num
  · simp only [nyClaim90837, rate90837, mkClaim]
    norm_num
  · simp only [nyClaim90837, rate90837, mkClaim, toFixed2]
    norm_num [round_eq]
  · simp only [nyClaim90837, rate90837, mkClaim, decide_eq_true_eq]
    norm_num
  · simp only [computeAllowed]
    push_cast
    norm_num [round_eq]

/-- C3 counterexample: at the concrete scenario the mandate is positive,
yet the stored violation percent (24.9, after `toFixed(1)`) differs from
`(-delta / mandate) * 100` (≈ 24.8779). -/
theorem c3_percent_counterexample :
    0 < nyClaim90837.mandateRate
    ∧ nyClaim90837.violationPercent
        ≠ some (-(nyClaim90837.paidAmount - nyClaim90837.mandateRate)
            / nyClaim90837.mandateRate * 100) := by
  constructor
  · simp only [nyClaim90837, rate90837, mkClaim]
    norm_num
  · simp only [nyClaim90837, rate90837, mkClaim, toFixed1, toFixed2]
    rw [if_pos (by norm_num), if_neg (by norm_num)]
    simp only [ne_eq, Option.some.injEq]
    norm_num [round_eq]

/-- C3 (amended): the stored violation percent is `(-delta / mandate) *
100` rounded to one decimal (`toFixed(1)`) when `paid < mandate`, `0`
otherwise; a zero mandate with `paid < 0` silently yields the non-finite
JavaScript value (modelled `none`) — no data-quality flagging exists. -/
theorem c3_percent_amended
    (claimId payer provider dos cptCode geoRegion processingDate : String)
    (r : RateInfo) (geoFactor paid : ℚ) :
    (paid < r.cola2025 * geoFactor → r.cola2025 * geoFactor ≠ 0 →
      (mkClaim claimId payer provider dos cptCode geoRegion processingDate
          r geoFactor paid).violationPercent
        = some (toFixed1 (-(paid - r.cola2025 * geoFactor)
            / (r.cola2025 * geoFactor) * 100)))
    ∧ (¬ paid < r.cola2025 * geoFactor →
      (mkClaim claimId payer provider dos cptCode geoRegion processingDate
          r geoFactor paid).violationPercent = some 0)
    ∧ (paid < r.cola2025 * geoFactor → r.cola2025 * geoFactor = 0 →
      (mkClaim claimId payer provider dos cptCode geoRegion processingDate
          r geoFactor paid).violationPercent = none) := by
  refine ⟨?_, ?_, ?_⟩
  · intro h1 h2
    simp only [mkClaim, if_pos h1, if_neg h2]
    congr 2
    ring
  · intro h1
    simp only [mkClaim, if_neg h1]
  · intro h1 h2
    simp only [mkClaim, if_pos h1, if_pos h2]

/-- C3 amended witness: code 90853 upstate, paid 87.70, mandate 97.70 —
the stored percent is 10.2. -/
theorem c3_percent_amended_witness : cexJan.violationPercent = some (51/5) := by
  have h := (c3_percent_amended "CLM-2025-1001" "Aetna" "Dr. Sarah Johnson"
      "2025-01-15" "90853" "upstate" "2025-03-01" rate90853 1 (877/10)).1
    (by norm_num [rate90853]) (by norm_num [rate90853])
  simp only [cexJan]
  rw [h]
  simp only [rate90853, toFixed1, Option.some.injEq]
  norm_num [round_eq]

/-- C7: the total recoverable is the sum of the absolute deltas over
exactly the violation claims, and the average underpayment is the total
recoverable divided by the violation count (with `x / 0 = 0` in `ℚ`, which
agrees with the source's guarded `0` because an empty violation list has
total recoverable `0`). -/
theorem c7_totals (data : List ClaimRecord) (sp : String) :
    (calculateMetrics data sp).totalRecoverable
      = (((filteredData data sp).filter fun c => c.isViolation).map
          fun c => |c.delta|).sum
    ∧ (calculateMetrics data sp).avgUnderpayment
      = (calculateMetrics data sp).totalRecoverable
        / ((calculateMetrics data sp).violations : ℚ) := by
  constructor
  · simp only [calculateMetrics]
    rw [foldl_abs_delta]
    ring
  · simp only [calculateMetrics]
    by_cases h : 0 < ((filteredData data sp).filter fun c => c.isViolation).length
    · simp only [if_pos h]
    · have hl : ((filteredData data sp).filter fun c => c.isViolation).length = 0 := by
        omega
      have he : (filteredData data sp).filter (fun c => c.isViolation) = [] :=
        List.length_eq_zero.mp hl
      simp [if_neg h, he]

/-- C9: the metric computation is deterministic — two runs over equal
claim batches and equal payer filters give identical summaries and
identical per-claim verdict fields. -/
theorem c9_deterministic (d1 d2 : List ClaimRecord) (sp1 sp2 : String)
    (hd : d1 = d2) (hs : sp1 = sp2) :
    calculateMetrics d1 sp1 = calculateMetrics d2 sp2
    ∧ (filteredData d1 sp1).map (fun c => (c.claimId, c.isViolation, c.delta))
      = (filteredData d2 sp2).map (fun c => (c.claimId, c.isViolation, c.delta)) := by
  subst hd
  subst hs
  exact ⟨rfl, rfl⟩

/-- C9 witness: two runs on the same concrete one-claim batch agree. -/
theorem c9_deterministic_witness :
    calculateMetrics [cexJan] "all" = calculateMetrics [cexJan] "all"
    ∧ (filteredData [cexJan] "all").map (fun c => (c.claimId, c.isViolation, c.delta))
      = (filteredData [cexJan] "all").map (fun c => (c.claimId, c.isViolation, c.delta)) :=
  c9_deterministic [cexJan] [cexJan] "all" "all" rfl rfl

/-- C10: on an empty (or fully filtered-out) claim list the summary has 0
total claims, 0 violations, 0 total recoverable and 0 average underpayment
(that division is guarded), while the violation rate comes from the
unguarded `0 / 0` and is the non-finite JavaScript value (modelled
`none`). -/
theorem c10_empty_batch (data : List ClaimRecord) (sp : String)
    (h : filteredData data sp = []) :
    (calculateMetrics data sp).totalClaims = 0
    ∧ (calculateMetrics data sp).violations = 0
    ∧ (calculateMetrics data sp).totalRecoverable = 0
    ∧ (calculateMetrics data sp).avgUnderpayment = 0
    ∧ (calculateMetrics data sp).violationRate = none := by
  simp [calculateMetrics, h]

/-- C10 witness: the empty batch. -/
theorem c10_empty_batch_witness :
    filteredData [] "all" = []
    ∧ (calculateMetrics [] "all").totalClaims = 0
    ∧ (calculateMetrics [] "all").violationRate = none :=
  ⟨rfl, (c10_empty_batch [] "all" rfl).1, (c10_empty_batch [] "all" rfl).2.2.2.2⟩

/-- Changing processing dates commutes with the payer filter. -/
theorem filteredData_map (f : ClaimRecord → String) (data : List ClaimRecord)
    (sp : String) :
    filteredData (data.map (setProcessing f)) sp
      = (filteredData data sp).map (setProcessing f) := by
  unfold filteredData
  by_cases h : sp = "all"
  · simp [h]
  · simp only [if_neg h]
    induction data with
    | nil => rfl
    | cons c t ih =>
        simp only [List.map_cons, List.filter_cons]
        by_cases hc : c.payer = sp
        · have hc2 : (setProcessing f c).payer = sp := hc
          simp [hc, hc2, ih]
        · have hc2 : ¬ (setProcessing f c).payer = sp := hc
          simp [hc, hc2, ih]

/-- The monthly-trend object ignores processing dates. -/
theorem monthlyTrends_map (f : ClaimRecord → String) (l : List ClaimRecord) :
    monthlyTrends (l.map (setProcessing f)) = monthlyTrends l := by
  unfold monthlyTrends
  suffices h : ∀ acc,
      (l.map (setProcessing f)).foldl
        (fun acc c => updateAssoc acc (monthOf c) (bumpMonth c) ⟨0, 0⟩) acc
      = l.foldl (fun acc c => updateAssoc acc (monthOf c) (bumpMonth c) ⟨0, 0⟩) acc by
    exact h []
  induction l with
  | nil => intro acc; rfl
  | cons c t ih =>
      intro acc
      simp only [List.map_cons, List.foldl_cons]
      exact ih _

/-- C8: the monthly breakdown is keyed by the `YYYY-MM` prefix of the
service date and is invariant under arbitrary changes of the processing
date — a claim is never grouped under its processing month. -/
theorem c8_service_date_month :
    (∀ (data : List ClaimRecord) (sp : String) (f : ClaimRecord → String),
        (calculateMetrics (data.map (setProcessing f)) sp).trendData
          = (calculateMetrics data sp).trendData)
    ∧ ∀ c : ClaimRecord, monthOf c = c.dos.take 7 := by
  constructor
  · intro data sp f
    show trendData (filteredData (data.map (setProcessing f)) sp)
      = trendData (filteredData data sp)
    rw [filteredData_map]
    unfold trendData
    rw [monthlyTrends_map]
  · intro c
    rfl

/-- Evaluation of the January record: mandate 97.70, paid 87.70, delta
−10.00, a violation with stored percent 10.2. -/
theorem cexJan_eval : cexJan =
    { claimId := "CLM-2025-1001", payer := "Aetna", provider := "Dr. Sarah Johnson",
      dos := "2025-01-15", cptCode := "90853", description := "Group Psychotherapy",
      category := "Group", geoRegion := "upstate", mandateRate := 977/10,
      paidAmount := 877/10, delta := -10, isViolation := true,
      violationPercent := some (51/5), processingDate := "2025-03-01" } := by
  simp only [cexJan, rate90853, mkClaim, toFixed2, toFixed1]
  norm_num [round_eq]

/-- Evaluation of the February record: mandate 97.70, paid 77.70, delta
−20.00, a violation with stored percent 20.5. -/
theorem cexFeb_eval : cexFeb =
    { claimId := "CLM-2025-1002", payer := "Cigna", provider := "Dr. Michael Chen",
      dos := "2025-02-15", cptCode := "90853", description := "Group Psychotherapy",
      category := "Group", geoRegion := "upstate", mandateRate := 977/10,
      paidAmount := 777/10, delta := -20, isViolation := true,
      violationPercent := some (41/2), processingDate := "2025-03-01" } := by
  simp only [cexFeb, rate90853, mkClaim, toFixed2, toFixed1]
  norm_num [round_eq]

/-- The monthly trend of the two-claim batch: January recovers 10.00,
February recovers 20.00, listed in ascending month order. -/
theorem trendData_two_months :
    (calculateMetrics [cexJan, cexFeb] "all").trendData
      = [⟨"2025-01", 1, 10⟩, ⟨"2025-02", 1, 20⟩] := by
  show trendData (filteredData [cexJan, cexFeb] "all") = _
  have hfd : filteredData [cexJan, cexFeb] "all" = [cexJan, cexFeb] := rfl
  rw [hfd, cexJan_eval, cexFeb_eval]
  have hmt : monthlyTrends
      [{ claimId := "CLM-2025-1001", payer := "Aetna", provider := "Dr. Sarah Johnson",
         dos := "2025-01-15", cptCode := "90853", description := "Group Psychotherapy",
         category := "Group", geoRegion := "upstate", mandateRate := 977/10,
         paidAmount := 877/10, delta := -10, isViolation := true,
         violationPercent := some (51/5), processingDate := "2025-03-01" },
       { claimId := "CLM-2025-1002", payer := "Cigna", provider := "Dr. Michael Chen",
         dos := "2025-02-15", cptCode := "90853", description := "Group Psychotherapy",
         category := "Group", geoRegion := "upstate", mandateRate := 977/10,
         paidAmount := 777/10, delta := -20, isViolation := true,
         violationPercent := some (41/2), processingDate := "2025-03-01" }]
      = [("2025-01", ⟨1, 10⟩), ("2025-02", ⟨1, 20⟩)] := by
    have htj : "2025-01-15".take 7 = "2025-01" := rfl
    have htf : "2025-02-15".take 7 = "2025-02" := rfl
    have hne : ¬ ("2025-01" : String) = "2025-02" := by decide
    simp only [monthlyTrends, List.foldl_cons, List.foldl_nil, updateAssoc,
      monthOf, bumpMonth, htj, htf, if_neg hne]
    norm_num
  rw [trendData, hmt]
  have h12 : ("2025-01" : String) ≤ "2025-02" := by
    rw [String.le_iff_toList_le]
    decide
  have hb : (("2025-02" : String) == "2025-01") = false := by decide
  simp only [List.map_cons, List.map_nil, List.insertionSort, List.orderedInsert,
    if_pos h12, List.lookup, hb, beq_self_eq_true]
  norm_num

/-- C5 counterexample: in the two-claim batch the monthly breakdown lists
January (recoverable 10.00) before February (recoverable 20.00), so the
entries are not in descending order of total recoverable amount. -/
theorem c5_ordering_counterexample :
    ¬ descByRecoverable
        ((calculateMetrics [cexJan, cexFeb] "all").trendData.map
          fun e => (e.month, e.recoverable)) := by
  rw [trendData_two_months]
  simp only [descByRecoverable, List.map_cons, List.map_nil, List.pairwise_cons,
    List.Pairwise.nil, List.mem_singleton]
  intro h
  rcases h.1 ("2025-02", 20) rfl with h2 | ⟨h2, -⟩ <;> norm_num at h2

/-- C5 (amended): the monthly breakdown is sorted by ascending month key
(`Object.keys(...).sort()`), not by descending recoverable amount; the
payer and category breakdowns are plain objects in first-occurrence
order. -/
theorem c5_month_keys_sorted (data : List ClaimRecord) (sp : String) :
    ((calculateMetrics data sp).trendData.map fun e => e.month).Sorted (· ≤ ·) := by
  show ((trendData (filteredData data sp)).map fun e => e.month).Sorted (· ≤ ·)
  unfold trendData
  rw [List.map_map]
  have h := List.map_id'
    (List.insertionSort (α := String) (· ≤ ·)
      ((monthlyTrends (filteredData data sp)).map Prod.fst))
  rw [show (List.map
      ((fun e : TrendEntry => e.month) ∘ fun m =>
        { month := m
          violations :=
            ((List.lookup m (monthlyTrends (filteredData data sp))).getD
              ⟨0, 0⟩).violations
          recoverable :=
            ((List.lookup m (monthlyTrends (filteredData data sp))).getD
              ⟨0, 0⟩).recoverable })
      (List.insertionSort (· ≤ ·)
        ((monthlyTrends (filteredData data sp)).map Prod.fst)))
    = List.insertionSort (· ≤ ·)
        ((monthlyTrends (filteredData data sp)).map Prod.fst) from h]
  exact List.sorted_insertionSort _ _

/-- Pointwise group merge is associative. -/
theorem mergeGroup_assoc (a b c : GroupStats) :
    mergeGroup (mergeGroup a b) c = mergeGroup a (mergeGroup b c) := by
  simp only [mergeGroup, GroupStats.mk.injEq]
  exact ⟨Nat.add_assoc _ _ _, Nat.add_assoc _ _ _, add_assoc _ _ _⟩

/-- Pointwise group merge is commutative. -/
theorem mergeGroup_comm (a b : GroupStats) : mergeGroup a b = mergeGroup b a := by
  simp only [mergeGroup, GroupStats.mk.injEq]
  exact ⟨Nat.add_comm _ _, Nat.add_comm _ _, add_comm _ _⟩

/-- The zero cell is a left identity for group merge. -/
theorem mergeGroup_zero_left (a : GroupStats) : mergeGroup ⟨0, 0, 0⟩ a = a := by
  cases a
  simp [mergeGroup]

/-- Summary merge is associative. -/
theorem mergeSummary_assoc (a b c : PartialSummary) :
    mergeSummary (mergeSummary a b) c = mergeSummary a (mergeSummary b c) := by
  simp only [mergeSummary, PartialSummary.mk.injEq]
  refine ⟨Nat.add_assoc _ _ _, Nat.add_assoc _ _ _, add_assoc _ _ _, ?_, ?_, ?_⟩ <;>
    exact funext fun k => mergeGroup_assoc _ _ _

/-- Summary merge is commutative. -/
theorem mergeSummary_comm (a b : PartialSummary) :
    mergeSummary a b = mergeSummary b a := by
  simp only [mergeSummary, PartialSummary.mk.injEq]
  refine ⟨Nat.add_comm _ _, Nat.add_comm _ _, add_comm _ _, ?_, ?_, ?_⟩ <;>
    exact funext fun k => mergeGroup_comm _ _

/-- The empty summary is a left identity for summary merge. -/
theorem mergeSummary_empty_left (s : PartialSummary) :
    mergeSummary emptySummary s = s := by
  cases s
  simp only [mergeSummary, emptySummary, PartialSummary.mk.injEq]
  refine ⟨Nat.zero_add _, Nat.zero_add _, zero_add _, ?_, ?_, ?_⟩ <;>
    exact funext fun k => mergeGroup_zero_left _

/-- Unfolding one aggregation step. -/
theorem aggregate_cons (c : ClaimRecord) (l : List ClaimRecord) :
    aggregate (c :: l) = mergeSummary (summarizeClaim c) (aggregate l) := rfl

/-- Aggregating a concatenation merges the two shard summaries. -/
theorem aggregate_append (xs ys : List ClaimRecord) :
    aggregate (xs ++ ys) = mergeSummary (aggregate xs) (aggregate ys) := by
  induction xs with
  | nil => simp [aggregate, mergeSummary_empty_left]
  | cons c t ih =>
      rw [List.cons_append, aggregate_cons, ih, aggregate_cons, mergeSummary_assoc]

/-- Aggregation is invariant under permutation of the batch. -/
theorem aggregate_perm {l1 l2 : List ClaimRecord} (h : l1.Perm l2) :
    aggregate l1 = aggregate l2 := by
  induction h with
  | nil => rfl
  | cons x _ ih => rw [aggregate_cons, aggregate_cons, ih]
  | swap x y l =>
      rw [aggregate_cons, aggregate_cons, aggregate_cons, aggregate_cons,
        ← mergeSummary_assoc, ← mergeSummary_assoc,
        mergeSummary_comm (summarizeClaim y) (summarizeClaim x)]
  | trans _ _ ih1 ih2 => exact ih1.trans ih2

/-- Merging all shard summaries equals aggregating the concatenated
shards. -/
theorem mergeAll_flatten (shards : List (List ClaimRecord)) :
    mergeAll (shards.map aggregate) = aggregate shards.flatten := by
  induction shards with
  | nil => rfl
  | cons s t ih =>
      show mergeSummary (aggregate s) (mergeAll (t.map aggregate)) = _
      rw [ih, List.flatten_cons, aggregate_append]

/-- The aggregate's claim count is the batch length. -/
theorem aggregate_totalClaims (l : List ClaimRecord) :
    (aggregate l).totalClaims = l.length := by
  induction l with
  | nil => rfl
  | cons c t ih =>
      rw [aggregate_cons]
      simp only [mergeSummary, summarizeClaim, List.length_cons, ih]
      omega

/-- The aggregate's violation count is the number of violation claims. -/
theorem aggregate_totalViolations (l : List ClaimRecord) :
    (aggregate l).totalViolations = (l.filter fun c => c.isViolation).length := by
  induction l with
  | nil => rfl
  | cons c t ih =>
      rw [aggregate_cons]
      simp only [mergeSummary, summarizeClaim, List.filter_cons]
      cases hc : c.isViolation
      · simp [hc, ih]
      · simp only [hc, if_true, ih, List.length_cons]
        omega

/-- The aggregate's recoverable total is the sum of absolute deltas over
violation claims. -/
theorem aggregate_totalRecoverable (l : List ClaimRecord) :
    (aggregate l).totalRecoverable
      = ((l.filter fun c => c.isViolation).map fun c => |c.delta|).sum := by
  induction l with
  | nil => rfl
  | cons c t ih =>
      rw [aggregate_cons]
      simp only [mergeSummary, summarizeClaim, List.filter_cons]
      cases hc : c.isViolation <;> simp [hc, ih]

/-- The spec-modelled aggregate reproduces the totals of the source's
`calculateMetrics` on the same filtered batch. -/
theorem aggregate_matches_metrics (data : List ClaimRecord) (sp : String) :
    (aggregate (filteredData data sp)).totalClaims
      = (calculateMetrics data sp).totalClaims
    ∧ (aggregate (filteredData data sp)).totalViolations
      = (calculateMetrics data sp).violations
    ∧ (aggregate (filteredData data sp)).totalRecoverable
      = (calculateMetrics data sp).totalRecoverable := by
  refine ⟨aggregate_totalClaims _, aggregate_totalViolations _, ?_⟩
  rw [aggregate_totalRecoverable]
  simp only [calculateMetrics]
  rw [foldl_abs_delta]
  ring

/-- C4: the spec-modelled summary merge is associative and commutative,
and aggregating any disjoint sharding of a batch shard-by-shard and
merging the partials gives exactly the one-shot aggregate of the whole
batch. -/
theorem c4_merge_shard_independent :
    (∀ a b c : PartialSummary,
        mergeSummary (mergeSummary a b) c = mergeSummary a (mergeSummary b c))
    ∧ (∀ a b : PartialSummary, mergeSummary a b = mergeSummary b a)
    ∧ ∀ (batch : List ClaimRecord) (shards : List (List ClaimRecord)),
        shards.flatten.Perm batch →
          mergeAll (shards.map aggregate) = aggregate batch := by
  refine ⟨mergeSummary_assoc, mergeSummary_comm, ?_⟩
  intro batch shards h
  rw [mergeAll_flatten]
  exact aggregate_perm h

/-- C4 witness: splitting the two-claim batch into two one-claim shards in
swapped order still aggregates to the whole-batch summary. -/
theorem c4_merge_shard_independent_witness :
    ([[cexFeb], [cexJan]] : List (List ClaimRecord)).flatten.Perm [cexJan, cexFeb]
    ∧ mergeAll ([[cexFeb], [cexJan]].map aggregate) = aggregate [cexJan, cexFeb] :=
  ⟨List.Perm.swap cexJan cexFeb [],
   c4_merge_shard_independent.2.2 [cexJan, cexFeb] [[cexFeb], [cexJan]]
     (List.Perm.swap cexJan cexFeb [])⟩

/-- A claim whose service code is absent from the rate table resolves to
`UnknownCode`. -/
theorem resolve_unknown_code (rt : List (String × ℤ)) (gt : List (String × ℚ))
    (c : InputClaim) (h : rt.lookup c.cptCode = none) :
    resolve rt gt c = .error .UnknownCode := by
  unfold resolve
  rw [h]

/-- Removing an unresolvable claim from a batch does not change the
pipeline's success list. -/
theorem pipelineRun_success_skip (rt : List (String × ℤ)) (gt : List (String × ℚ))
    (c : InputClaim) (h : resolve rt gt c = .error .UnknownCode) :
    ∀ pre post, (pipelineRun rt gt (pre ++ c :: post)).1
      = (pipelineRun rt gt (pre ++ post)).1 := by
  intro pre post
  induction pre with
  | nil => simp [pipelineRun, h]
  | cons a t ih =>
      simp only [List.cons_append, pipelineRun]
      cases resolve rt gt a <;> simp [ih]

/-- An unresolvable claim lands in the quarantine list with its error
kind. -/
theorem pipelineRun_quarantined (rt : List (String × ℤ)) (gt : List (String × ℚ))
    (c : InputClaim) (h : resolve rt gt c = .error .UnknownCode) :
    ∀ pre post, (c, ResolutionErrorKind.UnknownCode)
      ∈ (pipelineRun rt gt (pre ++ c :: post)).2 := by
  intro pre post
  induction pre with
  | nil => simp [pipelineRun, h]
  | cons a t ih =>
      simp only [List.cons_append, pipelineRun]
      cases resolve rt gt a <;> simp [ih]

/-- A claim whose code is unknown never appears among the pipeline's
successes. -/
theorem pipelineRun_no_success (rt : List (String × ℤ)) (gt : List (String × ℚ))
    (c : InputClaim) (h : rt.lookup c.cptCode = none) :
    ∀ l, ∀ p ∈ (pipelineRun rt gt l).1, p.1 ≠ c := by
  intro l
  induction l with
  | nil => simp [pipelineRun]
  | cons a t ih =>
      intro p hp
      simp only [pipelineRun] at hp
      cases hra : resolve rt gt a with
      | ok m =>
          rw [hra] at hp
          rcases List.mem_cons.mp hp with hpe | hpt
          · subst hpe
            intro hac
            have hac2 : a = c := hac
            rw [hac2, resolve_unknown_code rt gt c h] at hra
            exact Except.noConfusion hra
          · exact ih p hpt
      | error e =>
          rw [hra] at hp
          exact ih p hp

/-- C6: a claim referencing a service code missing from the rate table
(such as "99999") produces `ResolutionError{kind: UnknownCode}`, appears
in the quarantine list, contributes nothing to the summary totals (the
success list — and hence the summary computed over it — is exactly that of
the batch without it), and the rest of the batch is still processed. -/
theorem c6_unknown_code_quarantined (rt : List (String × ℤ))
    (gt : List (String × ℚ)) (pre post : List InputClaim) (c : InputClaim)
    (h : rt.lookup c.cptCode = none) :
    resolve rt gt c = .error .UnknownCode
    ∧ (c, ResolutionErrorKind.UnknownCode)
        ∈ (pipelineRun rt gt (pre ++ c :: post)).2
    ∧ (pipelineRun rt gt (pre ++ c :: post)).1
        = (pipelineRun rt gt (pre ++ post)).1
    ∧ specTotals (pipelineRun rt gt (pre ++ c :: post)).1
        = specTotals (pipelineRun rt gt (pre ++ post)).1
    ∧ ∀ p ∈ (pipelineRun rt gt (pre ++ c :: post)).1, p.1 ≠ c := by
  have hres : resolve rt gt c = .error .UnknownCode := resolve_unknown_code rt gt c h
  have hskip := pipelineRun_success_skip rt gt c hres pre post
  refine ⟨hres, pipelineRun_quarantined rt gt c hres pre post, hskip, ?_, ?_⟩
  · rw [hskip]
  · intro p hp
    exact pipelineRun_no_success rt gt c h (pre ++ c :: post) p hp

/-- C6 witness: the concrete batch [unknown-code claim, resolvable claim]
over the source-derived tables — the bad claim is quarantined with
`UnknownCode` and the success list is exactly that of the one-claim batch
without it. -/
theorem c6_unknown_code_quarantined_witness :
    List.lookup "99999" specRateTable = none
    ∧ resolve specRateTable specGeoTable badClaim99999 = .error .UnknownCode
    ∧ (badClaim99999, ResolutionErrorKind.UnknownCode)
        ∈ (pipelineRun specRateTable specGeoTable [badClaim99999, goodClaim]).2
    ∧ (pipelineRun specRateTable specGeoTable [badClaim99999, goodClaim]).1
        = (pipelineRun specRateTable specGeoTable [goodClaim]).1 := by
  have h : List.lookup badClaim99999.cptCode specRateTable = none := by
    simp [specRateTable, RATE_DATABASE, badClaim99999, List.lookup]
  have k := c6_unknown_code_quarantined specRateTable specGeoTable [] [goodClaim]
    badClaim99999 h
  exact ⟨h, k.1, k.2.1, k.2.2.1⟩

end Regula
